import Mathlib

/-!
Verification of the devimagehost backend's authentication and
token-lifecycle core (signup / verify-email / login / password change /
forgot-password / reset-password, plus the JWT auth middleware), as a
shallow embedding of the JavaScript handlers in `index.js` (the Express
server) and `middleware/auth.js`.

The credential store is a list of user records; Prisma point operations
(`findUnique`, `findFirst`, `update`, `create`) become list lookups and
maps.  External collaborators (bcrypt, jsonwebtoken, `crypto.randomBytes`)
are modelled by explicit executable functions or by parameters, as noted
on each definition.  Timestamps are integers (milliseconds for the reset
expiry, which the code compares via `new Date()`; seconds for JWT `exp`).
-/

namespace DevImageHost

/-- A row of the Prisma `User` table.  `password` holds the bcrypt hash,
never the plaintext.  `verifyToken`, `resetToken`, `resetTokenExpiry` are
nullable columns, hence `Option`.  `resetTokenExpiry` is a timestamp in
milliseconds since the epoch. -/
structure User where
  id : Nat
  name : String
  email : String
  password : String
  isVerified : Bool
  verifyToken : Option String
  resetToken : Option String
  resetTokenExpiry : Option Int
  deriving Repr, DecidableEq

/-- The credential store: the rows of the `User` table, in insertion
order (`create` appends). -/
abbrev Store := List User

/-- Modelled from the spec: bcrypt's slow salted one-way hash
(`bcrypt.hash(p, 10)`), an external library.  Modelled as an injective
tagging function; the salt is irrelevant to the verified properties. -/
def bcryptHash (p : String) : String := "bcrypt$2b$10$" ++ p

/-- Modelled from the spec: `bcrypt.compare(p, h)` succeeds exactly when
`h` is the hash of `p`. -/
def bcryptCompare (p h : String) : Bool := bcryptHash p == h

/-- The JSON body of a response, restricted to the shapes the handlers
produce: `{message}`, `{error}`, or login's `{token}`. -/
inductive Body where
  | message (m : String)
  | error (e : String)
  | token (t : Nat × Int)
  deriving Repr, DecidableEq

/-- A handler's outcome: HTTP status, JSON body, and the store after the
request. -/
abbrev Outcome := Nat × Body × Store

/-- `prisma.user.findUnique({ where: { email } })`: the unique row with
this exact (case-sensitive) email, if any. -/
def findByEmail (s : Store) (email : String) : Option User :=
  s.find? (fun u => u.email == email)

/-- `prisma.user.findUnique({ where: { id } })`. -/
def findById (s : Store) (uid : Nat) : Option User :=
  s.find? (fun u => u.id == uid)

/-- `prisma.user.update({ where: { id }, data })`: rewrite the row(s)
with this id through `f`, leaving every other row untouched. -/
def updateUser (s : Store) (uid : Nat) (f : User → User) : Store :=
  s.map (fun u => if u.id == uid then f u else u)

/-- `POST /api/signup` (index.js).  `freshId` is the serial id the
database assigns; `vtok` is the verify token produced by
`crypto.randomBytes(32).toString("hex")`.  `isVerified := false` and the
null reset fields are modelled from the spec: the Prisma schema with the
`isVerified`/token column defaults is not in the sources, and the spec
states `isVerified` defaults to false and the token columns to null. -/
def signup (s : Store) (freshId : Nat) (vtok : String)
    (name email password : String) : Outcome :=
  match findByEmail s email with
  | some _ => (400, .error "Email already registered", s)
  | none =>
      let u : User :=
        { id := freshId, name := name, email := email
          password := bcryptHash password
          isVerified := false, verifyToken := some vtok
          resetToken := none, resetTokenExpiry := none }
      (200, .message "Account created successfully! Please check your email to verify your account.", s ++ [u])

/-- `GET /api/verify-email` (index.js): `findFirst` on `verifyToken`,
400 on no match, else set `isVerified` and clear the token. -/
def verifyEmail (s : Store) (tok : String) : Outcome :=
  match s.find? (fun u => u.verifyToken == some tok) with
  | none => (400, .error "Invalid token", s)
  | some u =>
      (200, .message "Email verified successfully! You can now log in.",
        updateUser s u.id (fun v => { v with isVerified := true, verifyToken := none }))

/-- `jwt.sign({ id }, JWT_SECRET, { expiresIn: "1h" })`, modelled from
the spec (jsonwebtoken is an external library): the session token's
claims are the user id and an `exp` of issuance time plus 3600 seconds.
`now` is the issuance time in seconds. -/
def jwtSign (uid : Nat) (now : Int) : Nat × Int := (uid, now + 3600)

/-- `POST /api/login` (index.js). `now` is the current time in seconds,
used only to stamp the issued session token. -/
def login (s : Store) (email password : String) (now : Int) : Outcome :=
  match findByEmail s email with
  | none => (400, .error "User not found", s)
  | some u =>
      if !u.isVerified then
        (403, .error "Please verify your email before logging in.", s)
      else if !(bcryptCompare password u.password) then
        (400, .error "Invalid credentials", s)
      else
        (200, .token (jwtSign u.id now), s)

/-- `PUT /api/account/password` (index.js), reached with the id the Auth
Guard extracted.  When no row has that id, `user` is null and
`user.password` throws a TypeError that the handler's catch-all turns
into a 500 with the runtime's message. -/
def changePassword (s : Store) (uid : Nat) (current newPass : String) : Outcome :=
  match findById s uid with
  | none => (500, .error "Cannot read properties of null (reading 'password')", s)
  | some u =>
      if !(bcryptCompare current u.password) then
        (401, .error "Senha atual incorreta", s)
      else
        (200, .message "Senha alterada com sucesso",
          updateUser s uid (fun v => { v with password := bcryptHash newPass }))

/-- `POST /api/forgot-password` (index.js).  `rtok` is the token from
`crypto.randomBytes(32).toString("hex")`; the stored expiry is
`Date.now() + 1000*60*15` milliseconds. -/
def forgotPassword (s : Store) (email rtok : String) (now : Int) : Outcome :=
  match findByEmail s email with
  | none => (404, .error "User not found", s)
  | some u =>
      (200, .message "Password reset email sent",
        updateUser s u.id (fun v =>
          { v with resetToken := some rtok, resetTokenExpiry := some (now + 1000 * 60 * 15) }))

/-- The Prisma filter of `POST /api/reset-password`:
`{ resetToken: tok, resetTokenExpiry: { gte: new Date() } }`, i.e. the
stored expiry is greater than or equal to the current time. -/
def resetMatch (tok : String) (now : Int) (u : User) : Bool :=
  u.resetToken == some tok &&
    match u.resetTokenExpiry with
    | some e => now ≤ e
    | none => false

/-- `POST /api/reset-password` (index.js): `findFirst` with
`resetMatch`; 400 on no match, else persist the new hash and clear both
reset fields. -/
def resetPassword (s : Store) (tok newPass : String) (now : Int) : Outcome :=
  match s.find? (resetMatch tok now) with
  | none => (400, .error "Invalid or expired token", s)
  | some u =>
      (200, .message "Password reset successful",
        updateUser s u.id (fun v =>
          { v with password := bcryptHash newPass
                   resetToken := none, resetTokenExpiry := none }))

/-- The auth middleware's outcome (`middleware/auth.js`): an early JSON
rejection with a status, or the downstream handler running with the
verified user id on `req.user`. -/
inductive AuthResult where
  | reject (status : Nat)
  | authenticated (uid : Nat)
  deriving Repr, DecidableEq

/-- JavaScript `str.split(" ")` on the character list of `str`: split at
every single space, keeping empty fields (so adjacent spaces produce
empty strings, as in JS). -/
def jsSplitSpace : List Char → List Char → List String
  | [], acc => [String.mk acc.reverse]
  | c :: rest, acc =>
      if c = ' ' then String.mk acc.reverse :: jsSplitSpace rest []
      else jsSplitSpace rest (c :: acc)

/-- `authHeader && authHeader.split(" ")[1]` of `middleware/auth.js`:
the candidate token is falsy when the header is absent, when the header
has no second space-separated part, or when that part is the empty
string. -/
def extractBearer (authHeader : Option String) : Option String :=
  match authHeader with
  | none => none
  | some h =>
      match (jsSplitSpace h.toList []).get? 1 with
      | none => none
      | some t => if t == "" then none else some t

/-- `authenticateToken` of `middleware/auth.js`, parametric in the
verifier: `verify tok = some uid` models `jwt.verify` calling back with
the decoded claims, `none` models any verification error (bad signature,
expiry, malformed token). -/
def authenticateToken (verify : String → Option Nat) (authHeader : Option String) : AuthResult :=
  match extractBearer authHeader with
  | none => .reject 401
  | some tok =>
      match verify tok with
      | none => .reject 403
      | some uid => .authenticated uid

/-- Modelled from the spec: `jwt.verify` on a structurally valid,
correctly signed session token with claims `(uid, exp)` succeeds exactly
when the current time is strictly before `exp` (an expired token is a
verification error). -/
def jwtCheckClaims (claims : Nat × Int) (now : Int) : Option Nat :=
  if now < claims.2 then some claims.1 else none

/-- The Auth Guard applied to a request carrying a well-formed,
correctly signed session token with the given claims (the composition of
`authenticateToken` with `jwt.verify` on such a token). -/
def authGuardSigned (claims : Option (Nat × Int)) (now : Int) : AuthResult :=
  match claims with
  | none => .reject 401
  | some c =>
      match jwtCheckClaims c now with
      | none => .reject 403
      | some uid => .authenticated uid

/-- One request against the account-flow core, with the
externally-supplied data (fresh ids, random tokens, clock readings) as
constructor arguments. -/
inductive Op where
  | signup (freshId : Nat) (vtok name email password : String)
  | verifyEmail (tok : String)
  | login (email password : String) (now : Int)
  | changePassword (uid : Nat) (current newPass : String)
  | forgotPassword (email rtok : String) (now : Int)
  | resetPassword (tok newPass : String) (now : Int)

/-- The store after handling one request. -/
def applyOp (s : Store) : Op → Store
  | .signup i v n e p => (signup s i v n e p).2.2
  | .verifyEmail t => (verifyEmail s t).2.2
  | .login e p now => (login s e p now).2.2
  | .changePassword u c np => (changePassword s u c np).2.2
  | .forgotPassword e r now => (forgotPassword s e r now).2.2
  | .resetPassword t np now => (resetPassword s t np now).2.2

/-- The store reached from the empty database by a sequence of
requests. -/
def run (ops : List Op) : Store := ops.foldl applyOp []

/-- The spec's verification-state invariant on one user record: exactly
one of the two states "verifyToken present" and "isVerified = true with
verifyToken = null" holds. -/
def vInv (u : User) : Prop :=
  (u.verifyToken.isSome ∧ ¬(u.isVerified = true ∧ u.verifyToken = none)) ∨
  (¬u.verifyToken.isSome ∧ (u.isVerified = true ∧ u.verifyToken = none))

instance (u : User) : Decidable (vInv u) := by unfold vInv; infer_instance

end DevImageHost

namespace DevImageHost

/-! ## Shared helper lemmas -/

/-- A concrete user record used by witness instantiations. -/
def sampleUser : User :=
  { id := 1, name := "Ann", email := "ann@x.com"
    password := bcryptHash "pw1"
    isVerified := true, verifyToken := none
    resetToken := some "t1", resetTokenExpiry := some 100 }

theorem outcome_store_login (s : Store) (e p : String) (now : Int) :
    (login s e p now).2.2 = s := by
  unfold login
  cases findByEmail s e with
  | none => rfl
  | some u =>
      by_cases hv : u.isVerified
      · by_cases hc : bcryptCompare p u.password
        · simp [hv, hc]
        · simp [hv, hc]
      · simp [hv]

/-! ## C1: reset-password validity window -/

/-- C1 (counterexample): the claim predicts that a reset-password
request at the exact instant `resetTokenExpiry = now` fails with 400
and leaves the store unchanged; on the code, the Prisma filter uses a
non-strict `gte` comparison, so at `now = 100` against a stored expiry
of `100` the operation returns 200 and rewrites the store. -/
theorem reset_at_exact_expiry_succeeds :
    (resetPassword [sampleUser] "t1" "np" 100).1 = 200 ∧
    (resetPassword [sampleUser] "t1" "np" 100).1 ≠ 400 ∧
    (resetPassword [sampleUser] "t1" "np" 100).2.2 ≠ [sampleUser] := by
  decide

/-- C1 (amended): a reset-password request with token `tok` at time
`now` succeeds if and only if some user has `resetToken = tok` and
`resetTokenExpiry ≥ now` (non-strict comparison: the exact instant
`resetTokenExpiry = now` still succeeds); on no such user it fails with
400 "Invalid or expired token" and the store is unchanged; on success it
persists the hash of the new password and clears both reset fields of
the matched user. -/
theorem reset_password_spec (s : Store) (tok newPass : String) (now : Int) :
    (((resetPassword s tok newPass now).1 = 200) ↔
      ∃ u ∈ s, resetMatch tok now u = true)
    ∧ (s.find? (resetMatch tok now) = none →
        resetPassword s tok newPass now = (400, .error "Invalid or expired token", s))
    ∧ (∀ u, s.find? (resetMatch tok now) = some u →
        resetPassword s tok newPass now =
          (200, .message "Password reset successful",
            updateUser s u.id (fun v =>
              { v with password := bcryptHash newPass
                       resetToken := none, resetTokenExpiry := none }))) := by
  refine ⟨?_, ?_, ?_⟩
  · constructor
    · intro h200
      cases hf : s.find? (resetMatch tok now) with
      | none => unfold resetPassword at h200; rw [hf] at h200; simp at h200
      | some u =>
          exact ⟨u, List.mem_of_find?_eq_some hf, List.find?_some hf⟩
    · rintro ⟨u, hu, hmatch⟩
      cases hf : s.find? (resetMatch tok now) with
      | none =>
          exact absurd hmatch (by simpa using List.find?_eq_none.mp hf u hu)
      | some w => unfold resetPassword; rw [hf]
  · intro hf; unfold resetPassword; rw [hf]
  · intro u hf; unfold resetPassword; rw [hf]

/-- C1 witness: a store where the token matches with `now ≤ expiry`
yields 200, and one where it does not match yields the unchanged-store
failure. -/
theorem reset_password_spec_witness :
    (resetPassword [sampleUser] "t1" "np" 50).1 = 200 ∧
    resetPassword [sampleUser] "zz" "np" 50 =
      (400, .error "Invalid or expired token", [sampleUser]) := by
  constructor
  · exact (reset_password_spec [sampleUser] "t1" "np" 50).1.mpr
      ⟨sampleUser, by decide, by decide⟩
  · exact (reset_password_spec [sampleUser] "zz" "np" 50).2.1 (by decide)

/-! ## C3: login case analysis -/

/-- C3: login returns 400 "User not found" when no user has the email;
403 for an unverified user regardless of the password; 400 "Invalid
credentials" for a verified user with a wrong password; and 200 with a
session token for a verified user with the right password — and the
store is unchanged in every case. -/
theorem login_cases (s : Store) (email password : String) (now : Int) :
    (findByEmail s email = none →
      login s email password now = (400, .error "User not found", s))
    ∧ (∀ u, findByEmail s email = some u → u.isVerified = false →
      login s email password now = (403, .error "Please verify your email before logging in.", s))
    ∧ (∀ u, findByEmail s email = some u → u.isVerified = true →
        bcryptCompare password u.password = false →
      login s email password now = (400, .error "Invalid credentials", s))
    ∧ (∀ u, findByEmail s email = some u → u.isVerified = true →
        bcryptCompare password u.password = true →
      login s email password now = (200, .token (jwtSign u.id now), s))
    ∧ (login s email password now).2.2 = s := by
  refine ⟨?_, ?_, ?_, ?_, outcome_store_login s email password now⟩
  · intro hf; unfold login; rw [hf]
  · intro u hf hv; unfold login; rw [hf]; simp [hv]
  · intro u hf hv hc; unfold login; rw [hf]; simp [hv, hc]
  · intro u hf hv hc; unfold login; rw [hf]; simp [hv, hc]

/-- C3 witness: on a two-user store, all four login outcomes are
realised at concrete inputs. -/
theorem login_cases_witness :
    login [sampleUser] "nobody@x.com" "pw" 0 = (400, .error "User not found", [sampleUser]) ∧
    login [{ sampleUser with isVerified := false }] "ann@x.com" "pw1" 0 =
      (403, .error "Please verify your email before logging in.", [{ sampleUser with isVerified := false }]) ∧
    login [sampleUser] "ann@x.com" "wrong" 0 = (400, .error "Invalid credentials", [sampleUser]) ∧
    login [sampleUser] "ann@x.com" "pw1" 0 = (200, .token (jwtSign 1 0), [sampleUser]) := by
  refine ⟨?_, ?_, ?_, ?_⟩
  · exact (login_cases [sampleUser] "nobody@x.com" "pw" 0).1 (by decide)
  · exact (login_cases [{ sampleUser with isVerified := false }] "ann@x.com" "pw1" 0).2.1
      { sampleUser with isVerified := false } (by decide) (by decide)
  · exact (login_cases [sampleUser] "ann@x.com" "wrong" 0).2.2.1 sampleUser (by decide) (by decide) (by decide)
  · exact (login_cases [sampleUser] "ann@x.com" "pw1" 0).2.2.2.1 sampleUser (by decide) (by decide) (by decide)

/-! ## C4: auth middleware gate -/

/-- C4: for any verifier and any request, a missing bearer token yields
an early 401 rejection (the downstream handler never runs), a present
token that fails verification yields an early 403 rejection, and a
token that verifies yields `authenticated uid`, handing the verified id
to the downstream handler. -/
theorem authenticateToken_cases (verify : String → Option Nat) (h : Option String) :
    (extractBearer h = none → authenticateToken verify h = .reject 401)
    ∧ (∀ t, extractBearer h = some t → verify t = none →
        authenticateToken verify h = .reject 403)
    ∧ (∀ t uid, extractBearer h = some t → verify t = some uid →
        authenticateToken verify h = .authenticated uid) := by
  refine ⟨?_, ?_, ?_⟩
  · intro he; simp [authenticateToken, he]
  · intro t he hv; simp [authenticateToken, he, hv]
  · intro t uid he hv; simp [authenticateToken, he, hv]

/-- C4 witness: with a verifier accepting exactly the token "good" as
user 7, the three middleware outcomes are realised at concrete
headers. -/
theorem authenticateToken_cases_witness :
    authenticateToken (fun t => if t == "good" then some 7 else none) none = .reject 401 ∧
    authenticateToken (fun t => if t == "good" then some 7 else none) (some "Bearer bad") = .reject 403 ∧
    authenticateToken (fun t => if t == "good" then some 7 else none) (some "Bearer good") = .authenticated 7 := by
  refine ⟨?_, ?_, ?_⟩
  · exact (authenticateToken_cases (fun t => if t == "good" then some 7 else none) none).1 (by decide)
  · exact (authenticateToken_cases (fun t => if t == "good" then some 7 else none)
      (some "Bearer bad")).2.1 "bad" (by decide) (by decide)
  · exact (authenticateToken_cases (fun t => if t == "good" then some 7 else none)
      (some "Bearer good")).2.2 "good" 7 (by decide) (by decide)

/-! ## C10: password change for a deleted account -/

/-- C10: when the authenticated id has no record in the store, the
password-change handler returns 500 (the null dereference on
`user.password` is caught by the catch-all) — not 401 and not 200 — and
the store is unchanged. -/
theorem changePassword_deleted_account (s : Store) (uid : Nat) (current newPass : String)
    (h : findById s uid = none) :
    changePassword s uid current newPass =
      (500, .error "Cannot read properties of null (reading 'password')", s)
    ∧ (changePassword s uid current newPass).1 ≠ 401
    ∧ (changePassword s uid current newPass).1 ≠ 200 := by
  have he : changePassword s uid current newPass =
      (500, .error "Cannot read properties of null (reading 'password')", s) := by
    unfold changePassword; rw [h]
  exact ⟨he, by simp [he], by simp [he]⟩

/-- C10 witness: id 2 has no record in a one-user store. -/
theorem changePassword_deleted_account_witness :
    changePassword [sampleUser] 2 "pw1" "np" =
      (500, .error "Cannot read properties of null (reading 'password')", [sampleUser]) := by
  exact (changePassword_deleted_account [sampleUser] 2 "pw1" "np" (by decide)).1

/-! ## C6: session token lifetime -/

/-- C6: a session token issued by login at time T embeds the user id as
its claim and carries expiry T + 3600 seconds; the Auth Guard
authenticates it (as that user) at any verification time strictly
before T + 1 hour and rejects it with 403 at any time after T + 1
hour. -/
theorem session_token_lifetime (uid : Nat) (T now : Int) :
    (jwtSign uid T).1 = uid
    ∧ (jwtSign uid T).2 = T + 3600
    ∧ (now < T + 3600 → authGuardSigned (some (jwtSign uid T)) now = .authenticated uid)
    ∧ (T + 3600 < now → authGuardSigned (some (jwtSign uid T)) now = .reject 403) := by
  refine ⟨rfl, rfl, ?_, ?_⟩
  · intro hlt
    unfold authGuardSigned jwtCheckClaims jwtSign
    simp only
    rw [if_pos hlt]
  · intro hgt
    unfold authGuardSigned jwtCheckClaims jwtSign
    simp only
    rw [if_neg (by omega)]

/-- C6 witness: a token for user 7 issued at T = 0 is accepted at 59
minutes (3540 s) and rejected with 403 at 61 minutes (3660 s). -/
theorem session_token_lifetime_witness :
    authGuardSigned (some (jwtSign 7 0)) 3540 = .authenticated 7 ∧
    authGuardSigned (some (jwtSign 7 0)) 3660 = .reject 403 := by
  constructor
  · exact (session_token_lifetime 7 0 3540).2.2.1 (by decide)
  · exact (session_token_lifetime 7 0 3660).2.2.2 (by decide)

/-! ## C5: signup -/

/-- C5: signup with an already-registered email (exact, case-sensitive
match) fails with 400 and leaves the store unchanged; with a fresh email
it appends a user with `isVerified = false`, `verifyToken` set to the
generated token and the password stored only as its one-way hash; and no
signup response ever carries a session token. -/
theorem signup_cases (s : Store) (freshId : Nat) (vtok name email password : String) :
    ((∃ u ∈ s, u.email = email) →
      signup s freshId vtok name email password = (400, .error "Email already registered", s))
    ∧ ((∀ u ∈ s, u.email ≠ email) →
      signup s freshId vtok name email password =
        (200, .message "Account created successfully! Please check your email to verify your account.",
          s ++ [{ id := freshId, name := name, email := email
                  password := bcryptHash password
                  isVerified := false, verifyToken := some vtok
                  resetToken := none, resetTokenExpiry := none }]))
    ∧ (∀ c, (signup s freshId vtok name email password).2.1 ≠ Body.token c)
    ∧ (vtok ≠ "" → ∀ u ∈ (signup s freshId vtok name email password).2.2,
        u ∈ s ∨ (u.isVerified = false ∧ ∃ t, u.verifyToken = some t ∧ t ≠ "")) := by
  refine ⟨?_, ?_, ?_, ?_⟩
  · rintro ⟨u, hu, he⟩
    cases hf : findByEmail s email with
    | none =>
        have := List.find?_eq_none.mp hf u hu
        simp [he] at this
    | some w => unfold signup; rw [hf]
  · intro hall
    cases hf : findByEmail s email with
    | none => unfold signup; rw [hf]
    | some w =>
        have hw : w ∈ s := List.mem_of_find?_eq_some hf
        have := List.find?_some hf
        simp only [beq_iff_eq] at this
        exact absurd this (hall w hw)
  · intro c
    unfold signup
    cases findByEmail s email <;> simp
  · intro hv u hu
    cases hf : findByEmail s email with
    | some w =>
        unfold signup at hu; rw [hf] at hu
        exact Or.inl hu
    | none =>
        unfold signup at hu; rw [hf] at hu
        simp only at hu
        rcases List.mem_append.mp hu with h | h
        · exact Or.inl h
        · right
          rcases List.mem_singleton.mp h with rfl
          exact ⟨rfl, vtok, rfl, hv⟩

/-- C5 witness: signup conflicts on the existing email, succeeds on a
fresh one, and the fresh-email store gains exactly the unverified
record. -/
theorem signup_cases_witness :
    signup [sampleUser] 2 "vt" "Bob" "ann@x.com" "pw" =
      (400, .error "Email already registered", [sampleUser]) ∧
    signup [sampleUser] 2 "vt" "Bob" "bob@x.com" "pw" =
      (200, .message "Account created successfully! Please check your email to verify your account.",
        [sampleUser] ++ [{ id := 2, name := "Bob", email := "bob@x.com"
                           password := bcryptHash "pw"
                           isVerified := false, verifyToken := some "vt"
                           resetToken := none, resetTokenExpiry := none }]) ∧
    (∀ u ∈ (signup [sampleUser] 2 "vt" "Bob" "bob@x.com" "pw").2.2,
      u ∈ [sampleUser] ∨ (u.isVerified = false ∧ ∃ t, u.verifyToken = some t ∧ t ≠ "")) := by
  refine ⟨?_, ?_, ?_⟩
  · exact (signup_cases [sampleUser] 2 "vt" "Bob" "ann@x.com" "pw").1
      ⟨sampleUser, by decide, by decide⟩
  · exact (signup_cases [sampleUser] 2 "vt" "Bob" "bob@x.com" "pw").2.1 (by decide)
  · exact (signup_cases [sampleUser] 2 "vt" "Bob" "bob@x.com" "pw").2.2.2 (by decide)

/-! ## C2: email verification is single-use -/

/-- C2: verify-email with a token held by no user returns 400 "Invalid
token" and changes nothing; with a token found on a user it returns 200
and sets that user's `isVerified` while clearing `verifyToken`; and when
exactly one user holds the token, the first call succeeds and an
immediately repeated call with the same token fails with 400 leaving the
once-updated store unchanged. -/
theorem verify_email_single_use (s : Store) (tok : String) :
    (s.find? (fun u => u.verifyToken == some tok) = none →
      verifyEmail s tok = (400, .error "Invalid token", s))
    ∧ (∀ u, s.find? (fun u => u.verifyToken == some tok) = some u →
        verifyEmail s tok =
          (200, .message "Email verified successfully! You can now log in.",
            updateUser s u.id (fun v => { v with isVerified := true, verifyToken := none })))
    ∧ ((s.filter (fun u => u.verifyToken == some tok)).length = 1 →
        (verifyEmail s tok).1 = 200 ∧
        verifyEmail (verifyEmail s tok).2.2 tok =
          (400, .error "Invalid token", (verifyEmail s tok).2.2)) := by
  have hfail : ∀ t : Store, t.find? (fun u => u.verifyToken == some tok) = none →
      verifyEmail t tok = (400, .error "Invalid token", t) := by
    intro t hf; unfold verifyEmail; rw [hf]
  have hok : ∀ u, s.find? (fun u => u.verifyToken == some tok) = some u →
      verifyEmail s tok =
        (200, .message "Email verified successfully! You can now log in.",
          updateUser s u.id (fun v => { v with isVerified := true, verifyToken := none })) := by
    intro u hf; unfold verifyEmail; rw [hf]
  refine ⟨hfail s, hok, ?_⟩
  intro hlen
  obtain ⟨w, hw⟩ := List.length_eq_one.mp hlen
  cases hf : s.find? (fun u => u.verifyToken == some tok) with
  | none =>
      have hwmem : w ∈ s.filter (fun u => u.verifyToken == some tok) := by
        rw [hw]; exact List.mem_singleton_self w
      rcases List.mem_filter.mp hwmem with ⟨hws, hwp⟩
      exact absurd hwp (by simpa using List.find?_eq_none.mp hf w hws)
  | some u =>
      have hmem : u ∈ s := List.mem_of_find?_eq_some hf
      have hpred := List.find?_some hf
      have huw : u = w := by
        have : u ∈ s.filter (fun u => u.verifyToken == some tok) :=
          List.mem_filter.mpr ⟨hmem, hpred⟩
        rw [hw] at this
        simpa using this
      have heq := hok u hf
      rw [heq]
      refine ⟨rfl, ?_⟩
      have hnone : (updateUser s u.id (fun v =>
          { v with isVerified := true, verifyToken := none })).find?
            (fun u => u.verifyToken == some tok) = none := by
        apply List.find?_eq_none.mpr
        intro x hx
        rcases List.mem_map.mp hx with ⟨v, hv, hgv⟩
        by_cases hid : (v.id == u.id) = true
        · rw [if_pos hid] at hgv
          rw [← hgv]
          simp
        · rw [if_neg (by simpa using hid)] at hgv
          subst hgv
          intro hp
          have : v ∈ s.filter (fun u => u.verifyToken == some tok) :=
            List.mem_filter.mpr ⟨hv, hp⟩
          rw [hw] at this
          have hvw : v = w := by simpa using this
          rw [hvw, ← huw] at hid
          simp at hid
      exact hfail _ hnone

/-- C2 witness: on a one-user store holding verify token "vt", the
first verification succeeds and the second fails. -/
theorem verify_email_single_use_witness :
    (verifyEmail [{ sampleUser with isVerified := false, verifyToken := some "vt" }] "vt").1 = 200 ∧
    verifyEmail (verifyEmail [{ sampleUser with isVerified := false, verifyToken := some "vt" }] "vt").2.2 "vt" =
      (400, .error "Invalid token",
        (verifyEmail [{ sampleUser with isVerified := false, verifyToken := some "vt" }] "vt").2.2) := by
  exact (verify_email_single_use
    [{ sampleUser with isVerified := false, verifyToken := some "vt" }] "vt").2.2 (by decide)

/-! ## C9: password change touches only the password field -/

/-- C9: for an authenticated password-change by a user whose record is
`u`: a wrong current password yields 401 with the store entirely
unchanged; a correct one yields 200 and rewrites the store so that the
record(s) with the caller's id change only their `password` field (to
the hash of the new password) while every record with a different id is
kept as-is. -/
theorem change_password_frame (s : Store) (uid : Nat) (current newPass : String) (u : User)
    (hfind : findById s uid = some u) :
    (bcryptCompare current u.password = false →
      changePassword s uid current newPass = (401, .error "Senha atual incorreta", s))
    ∧ (bcryptCompare current u.password = true →
      changePassword s uid current newPass =
        (200, .message "Senha alterada com sucesso",
          updateUser s uid (fun v => { v with password := bcryptHash newPass }))
      ∧ ∀ v ∈ s,
          (v.id ≠ uid → v ∈ (changePassword s uid current newPass).2.2)
          ∧ (v.id = uid →
              { v with password := bcryptHash newPass } ∈ (changePassword s uid current newPass).2.2)) := by
  constructor
  · intro hc
    unfold changePassword
    rw [hfind]
    simp [hc]
  · intro hc
    have heq : changePassword s uid current newPass =
        (200, .message "Senha alterada com sucesso",
          updateUser s uid (fun v => { v with password := bcryptHash newPass })) := by
      unfold changePassword
      rw [hfind]
      simp [hc]
    refine ⟨heq, ?_⟩
    intro v hv
    rw [heq]
    constructor
    · intro hne
      have hmem := List.mem_map_of_mem
        (fun w => if w.id == uid then { w with password := bcryptHash newPass } else w) hv
      simp only [] at hmem
      rw [if_neg (by simpa using hne)] at hmem
      exact hmem
    · intro hid
      have hmem := List.mem_map_of_mem
        (fun w => if w.id == uid then { w with password := bcryptHash newPass } else w) hv
      simp only [] at hmem
      rw [if_pos (by simpa using hid)] at hmem
      exact hmem

/-- C9 witness: on a one-user store, the wrong current password leaves
the store unchanged with 401, and the right one rewrites only the
password field. -/
theorem change_password_frame_witness :
    changePassword [sampleUser] 1 "bad" "np" = (401, .error "Senha atual incorreta", [sampleUser]) ∧
    changePassword [sampleUser] 1 "pw1" "np" =
      (200, .message "Senha alterada com sucesso",
        updateUser [sampleUser] 1 (fun v => { v with password := bcryptHash "np" })) := by
  constructor
  · exact (change_password_frame [sampleUser] 1 "bad" "np" sampleUser (by decide)).1 (by decide)
  · exact ((change_password_frame [sampleUser] 1 "pw1" "np" sampleUser (by decide)).2 (by decide)).1

/-! ## Helpers about `updateUser` -/

theorem mem_updateUser (s : Store) (i : Nat) (f : User → User) (x : User)
    (hx : x ∈ updateUser s i f) :
    ∃ v, v ∈ s ∧ (((v.id == i) = true ∧ x = f v) ∨ ((v.id == i) = false ∧ x = v)) := by
  unfold updateUser at hx
  rcases List.mem_map.mp hx with ⟨v, hv, hgv⟩
  by_cases h : (v.id == i) = true
  · refine ⟨v, hv, Or.inl ⟨h, ?_⟩⟩
    rw [← hgv]; simp [h]
  · refine ⟨v, hv, Or.inr ⟨by simpa using h, ?_⟩⟩
    rw [← hgv]; simp [h]

theorem findByEmail_updateUser (s : Store) (i : Nat) (f : User → User) (email : String)
    (hf : ∀ v, (f v).email = v.email) :
    findByEmail (updateUser s i f) email =
      Option.map (fun v => if v.id == i then f v else v) (findByEmail s email) := by
  unfold findByEmail updateUser
  rw [List.find?_map]
  have hp : ((fun u : User => u.email == email) ∘ fun v => if v.id == i then f v else v) =
      (fun u : User => u.email == email) := by
    funext v
    by_cases h : (v.id == i) = true
    · simp [Function.comp, h, hf v]
    · simp [Function.comp, h]
  rw [hp]

/-! ## C8: only the latest reset token works -/

/-- C8: starting from a store where nobody holds reset token `t1`
(`t1` is freshly generated), issue it via forgot-password and then let a
second forgot-password overwrite it with a different token `t2`; a
reset-password request using the stale `t1`, at any later time, fails
with 400 "Invalid or expired token" and leaves the store unchanged —
only the latest token/expiry pair can complete a reset. -/
theorem stale_reset_token_rejected (s : Store) (email t1 t2 newPass : String)
    (now1 now2 nowR : Int)
    (hfresh : ∀ v ∈ s, v.resetToken ≠ some t1) (hne : t1 ≠ t2) :
    resetPassword ((forgotPassword (forgotPassword s email t1 now1).2.2 email t2 now2).2.2)
        t1 newPass nowR
      = (400, .error "Invalid or expired token",
          (forgotPassword (forgotPassword s email t1 now1).2.2 email t2 now2).2.2) := by
  have hno : ∀ x : User, x.resetToken ≠ some t1 → resetMatch t1 nowR x = false := by
    intro x hx
    have hb : (x.resetToken == some t1) = false := by simpa using hx
    unfold resetMatch
    rw [hb, Bool.false_and]
  have hforgot_none : ∀ (p : Store) (r : String) (n : Int), findByEmail p email = none →
      (forgotPassword p email r n).2.2 = p := by
    intro p r n hp; unfold forgotPassword; rw [hp]
  have hforgot_some : ∀ (p : Store) (u : User) (r : String) (n : Int), findByEmail p email = some u →
      (forgotPassword p email r n).2.2 =
        updateUser p u.id (fun v =>
          { v with resetToken := some r, resetTokenExpiry := some (n + 1000 * 60 * 15) }) := by
    intro p u r n hp; unfold forgotPassword; rw [hp]
  have hmain : ∀ x ∈ ((forgotPassword (forgotPassword s email t1 now1).2.2 email t2 now2).2.2 : Store),
      resetMatch t1 nowR x = false := by
    cases hf : findByEmail s email with
    | none =>
        rw [hforgot_none s t1 now1 hf, hforgot_none s t2 now2 hf]
        intro x hx
        exact hno x (hfresh x hx)
    | some u0 =>
        have h1 := hforgot_some s u0 t1 now1 hf
        have hfind1 : findByEmail ((forgotPassword s email t1 now1).2.2) email =
            some { u0 with resetToken := some t1, resetTokenExpiry := some (now1 + 1000 * 60 * 15) } := by
          rw [h1, findByEmail_updateUser s u0.id (fun v =>
            { v with resetToken := some t1, resetTokenExpiry := some (now1 + 1000 * 60 * 15) })
            email (fun v => rfl), hf]
          simp
        have h2 := hforgot_some ((forgotPassword s email t1 now1).2.2)
          { u0 with resetToken := some t1, resetTokenExpiry := some (now1 + 1000 * 60 * 15) }
          t2 now2 hfind1
        rw [h2, h1]
        intro x hx
        rcases mem_updateUser _ _ _ _ hx with ⟨v, hv, hcase⟩
        rcases hcase with ⟨hvid, hx2⟩ | ⟨hvid, hx2⟩
        · subst hx2
          apply hno
          intro hcontra
          exact hne (Option.some.inj hcontra).symm
        · subst hx2
          rcases mem_updateUser _ _ _ _ hv with ⟨w, hw, hcase1⟩
          rcases hcase1 with ⟨hwid, hvw⟩ | ⟨hwid, hvw⟩
          · exfalso
            rw [hvw] at hvid
            simp only [beq_iff_eq] at hvid hwid
            simp at hvid
            exact hvid hwid
          · rw [hvw]
            exact hno w (hfresh w hw)
  have hnone : ((forgotPassword (forgotPassword s email t1 now1).2.2 email t2 now2).2.2 : Store).find?
      (resetMatch t1 nowR) = none := by
    apply List.find?_eq_none.mpr
    intro x hx
    rw [hmain x hx]
    exact Bool.false_ne_true
  unfold resetPassword
  rw [hnone]


/-- C8 witness: after tokens "t1" then "t2" are issued for the only
account, the stale "t1" is rejected with the store unchanged. -/
theorem stale_reset_token_rejected_witness :
    resetPassword ((forgotPassword (forgotPassword
        [{ sampleUser with resetToken := none, resetTokenExpiry := none }]
        "ann@x.com" "t1" 0).2.2 "ann@x.com" "t2" 10).2.2) "t1" "np" 20
      = (400, .error "Invalid or expired token",
          (forgotPassword (forgotPassword
            [{ sampleUser with resetToken := none, resetTokenExpiry := none }]
            "ann@x.com" "t1" 0).2.2 "ann@x.com" "t2" 10).2.2) := by
  exact stale_reset_token_rejected
    [{ sampleUser with resetToken := none, resetTokenExpiry := none }]
    "ann@x.com" "t1" "t2" "np" 0 10 20 (by decide) (by decide)

/-! ## C7: verification-state invariant on all reachable stores -/

theorem vInv_congr (x y : User) (h1 : x.isVerified = y.isVerified)
    (h2 : x.verifyToken = y.verifyToken) (hy : vInv y) : vInv x := by
  unfold vInv at hy ⊢
  rw [h1, h2]
  exact hy

theorem vInv_updateUser (s : Store) (i : Nat) (f : User → User)
    (hf : ∀ v, vInv v → vInv (f v)) (hs : ∀ u ∈ s, vInv u) :
    ∀ u ∈ updateUser s i f, vInv u := by
  intro x hx
  rcases mem_updateUser s i f x hx with ⟨v, hv, hcase⟩
  rcases hcase with ⟨_, rfl⟩ | ⟨_, rfl⟩
  · exact hf v (hs v hv)
  · exact hs _ hv

theorem applyOp_preserves_vInv (s : Store) (hs : ∀ u ∈ s, vInv u) (op : Op) :
    ∀ u ∈ applyOp s op, vInv u := by
  cases op with
  | signup freshId vtok name email password =>
      show ∀ u ∈ (signup s freshId vtok name email password).2.2, vInv u
      unfold signup
      cases findByEmail s email with
      | some w => exact hs
      | none =>
          intro u hu
          simp only [] at hu
          rcases List.mem_append.mp hu with h | h
          · exact hs u h
          · rcases List.mem_singleton.mp h with rfl
            exact Or.inl ⟨by simp, by simp⟩
  | verifyEmail tok =>
      show ∀ u ∈ (verifyEmail s tok).2.2, vInv u
      unfold verifyEmail
      cases s.find? (fun u => u.verifyToken == some tok) with
      | none => exact hs
      | some w =>
          apply vInv_updateUser s w.id _ _ hs
          intro v _
          exact Or.inr ⟨by simp, by simp, rfl⟩
  | login email password now =>
      show ∀ u ∈ (login s email password now).2.2, vInv u
      rw [outcome_store_login]
      exact hs
  | changePassword uid current newPass =>
      show ∀ u ∈ (changePassword s uid current newPass).2.2, vInv u
      unfold changePassword
      cases findById s uid with
      | none => exact hs
      | some w =>
          by_cases hc : bcryptCompare current w.password
          · simp only [hc, Bool.not_true, Bool.false_eq_true, if_false]
            apply vInv_updateUser s uid _ _ hs
            intro v hv
            exact vInv_congr _ v rfl rfl hv
          · simp only [Bool.not_eq_true] at hc
            simp only [hc, Bool.not_false, if_true]
            exact hs
  | forgotPassword email rtok now =>
      show ∀ u ∈ (forgotPassword s email rtok now).2.2, vInv u
      unfold forgotPassword
      cases findByEmail s email with
      | none => exact hs
      | some w =>
          apply vInv_updateUser s w.id _ _ hs
          intro v hv
          exact vInv_congr _ v rfl rfl hv
  | resetPassword tok newPass now =>
      show ∀ u ∈ (resetPassword s tok newPass now).2.2, vInv u
      unfold resetPassword
      cases s.find? (resetMatch tok now) with
      | none => exact hs
      | some w =>
          apply vInv_updateUser s w.id _ _ hs
          intro v hv
          exact vInv_congr _ v rfl rfl hv

/-- C7: in every store reachable from the empty database by any
sequence of signup, verify, login, password-change, forgot-password and
reset-password requests, every user record satisfies exactly one of
(a) `verifyToken` is present, or (b) `isVerified = true` with
`verifyToken = null`. -/
theorem verification_invariant_reachable (ops : List Op) :
    ∀ u ∈ run ops, vInv u := by
  have key : ∀ (l : List Op) (s : Store), (∀ u ∈ s, vInv u) →
      ∀ u ∈ List.foldl applyOp s l, vInv u := by
    intro l
    induction l with
    | nil => intro s hs; simpa using hs
    | cons op rest ih =>
        intro s hs
        exact ih (applyOp s op) (applyOp_preserves_vInv s hs op)
  exact key ops [] (by simp)

/-- C7 witness: the store reached by a signup followed by its
verification consists of records satisfying the invariant; it is
applied to the just-verified record. -/
theorem verification_invariant_reachable_witness :
    vInv { id := 1, name := "Ann", email := "ann@x.com"
           password := bcryptHash "pw1"
           isVerified := true, verifyToken := none
           resetToken := none, resetTokenExpiry := none } := by
  exact verification_invariant_reachable
    [Op.signup 1 "vt" "Ann" "ann@x.com" "pw1", Op.verifyEmail "vt"]
    { id := 1, name := "Ann", email := "ann@x.com"
      password := bcryptHash "pw1"
      isVerified := true, verifyToken := none
      resetToken := none, resetTokenExpiry := none }
    (by decide)
